import Mathlib

/-!
Verification of the DocSync core: the content aggregator (`services/sync_service.py`),
the alignment analysis pipeline (`services/enhanced_alignment_service.py`) and the
webhook change detectors (`integrations/jira.py`, `integrations/linear.py`,
`integrations/confluence.py`).  Python dictionaries are embedded as association
lists over a JSON-like value type; the remote generation backend and the JSON
parser of the standard library are abstracted as function parameters.
-/

namespace DocSync

/-- JSON-like values, the shallow embedding of the Python dict/list/str/num
values flowing through DocSync.  An `obj` is an association list in insertion
order, mirroring a Python `dict`. -/
inductive JValue where
  | null : JValue
  | str : String → JValue
  | num : Int → JValue
  | bool : Bool → JValue
  | arr : List JValue → JValue
  | obj : List (String × JValue) → JValue

/-- Structured document content: a mapping from section name to value,
`StructuredContent` of the spec. -/
abbrev SContent := List (String × JValue)

/-- Python dictionary lookup `d[k]` / `d.get(k)`: the value bound to the first
occurrence of the key. -/
def findVal : SContent → String → Option JValue
  | [], _ => none
  | (k, v) :: rest, key => if k = key then some v else findVal rest key

/-- Python dictionary assignment `d[k] = v`: replace the value at an existing
key in place, otherwise append the new binding at the end. -/
def setKey : SContent → String → JValue → SContent
  | [], k, v => [(k, v)]
  | (k0, v0) :: rest, k, v =>
    if k0 = k then (k0, v) :: rest else (k0, v0) :: setKey rest k v

/-- Python truthiness of a JSON value (`if x:`): `None`, `''`, `0`, `False`,
`[]` and `{}` are falsy, everything else truthy. -/
def jTruthy : JValue → Bool
  | .null => false
  | .str s => !s.isEmpty
  | .num n => n != 0
  | .bool b => b
  | .arr xs => !xs.isEmpty
  | .obj fs => !fs.isEmpty

mutual

/-- One assignment of the loop body of `SyncService._merge_content`
(services/sync_service.py:106-111): for a source binding `(k, v)`, when the
target holds a mapping at `k` and `v` is a mapping, recurse into the two
mappings; otherwise `target[k] = v`. -/
def mergeStep (target : SContent) (k : String) (v : JValue) : SContent :=
  match findVal target k, v with
  | some (JValue.obj tm), JValue.obj sm =>
    setKey target k (JValue.obj (merge_content tm sm))
  | _, _ => setKey target k v
termination_by sizeOf v

/-- `SyncService._merge_content` (services/sync_service.py:98-111): merge
`source` into `target`, key by key in source order.  The Python routine
mutates `target` in place; this is its functional reading, returning the
updated target. -/
def merge_content (target : SContent) (source : SContent) : SContent :=
  match source with
  | [] => target
  | (k, v) :: rest => merge_content (mergeStep target k v) rest
termination_by sizeOf source

end

theorem findVal_setKey_self (t : SContent) (k : String) (v : JValue) :
    findVal (setKey t k v) k = some v := by
  induction t with
  | nil => simp [setKey, findVal]
  | cons hd tl ih =>
    obtain ⟨k0, v0⟩ := hd
    by_cases h : k0 = k
    · simp [setKey, h, findVal]
    · simp [setKey, h, findVal, ih]

theorem findVal_setKey_ne (t : SContent) (k k' : String) (v : JValue)
    (h : k' ≠ k) : findVal (setKey t k v) k' = findVal t k' := by
  have h' : k ≠ k' := Ne.symm h
  induction t with
  | nil => simp [setKey, findVal, h']
  | cons hd tl ih =>
    obtain ⟨k0, v0⟩ := hd
    by_cases h0 : k0 = k
    · subst h0
      simp [setKey, findVal, h']
    · simp [setKey, h0, findVal, ih]

/-- A key the source does not bind is untouched by `mergeStep` on another key. -/
theorem findVal_mergeStep_ne (t : SContent) (k key : String) (v : JValue)
    (h : key ≠ k) : findVal (mergeStep t k v) key = findVal t key := by
  cases hfv : findVal t k with
  | none => cases v <;> simp [mergeStep, hfv, findVal_setKey_ne _ _ _ _ h]
  | some tv =>
    cases tv <;> cases v <;> simp [mergeStep, hfv, findVal_setKey_ne _ _ _ _ h]

/-- The value the merge rule assigns for one key: the recursive merge when
both sides hold mappings, the source value otherwise. -/
def mergeLookup (tv : Option JValue) (v : JValue) : Option JValue :=
  match tv, v with
  | some (JValue.obj tm), JValue.obj sm =>
    some (JValue.obj (merge_content tm sm))
  | _, _ => some v

/-- At the assigned key, `mergeStep` yields the recursive merge when both
sides are mappings and the source value otherwise. -/
theorem findVal_mergeStep_self (t : SContent) (k : String) (v : JValue) :
    findVal (mergeStep t k v) k = mergeLookup (findVal t k) v := by
  cases hfv : findVal t k with
  | none => cases v <;> simp [mergeStep, hfv, mergeLookup, findVal_setKey_self]
  | some tv =>
    cases tv <;> cases v <;>
      simp [mergeStep, hfv, mergeLookup, findVal_setKey_self]

/-- Keys not bound by the source are untouched by the merge. -/
theorem findVal_merge_content_of_not_mem (target source : SContent)
    (key : String) (h : findVal source key = none) :
    findVal (merge_content target source) key = findVal target key := by
  induction source generalizing target with
  | nil => simp [merge_content]
  | cons hd rest ih =>
    obtain ⟨k, v⟩ := hd
    have hk : k ≠ key := by
      intro hkk
      simp [findVal, hkk] at h
    have hrest : findVal rest key = none := by
      simpa [findVal, hk] using h
    rw [merge_content, ih _ hrest, findVal_mergeStep_ne _ _ _ _ (Ne.symm hk)]

theorem findVal_eq_none_of_not_mem (l : SContent) (k : String)
    (h : k ∉ l.map Prod.fst) : findVal l k = none := by
  induction l with
  | nil => rfl
  | cons hd tl ih =>
    obtain ⟨k0, v0⟩ := hd
    simp only [List.map_cons, List.mem_cons, not_or] at h
    have h1 : ¬ k0 = k := fun e => h.1 e.symm
    simp [findVal, h1, ih h.2]

/-- At a key the source binds (sources with distinct keys, as Python dicts
are), the merge yields the recursive merge when both sides hold mappings and
the source value otherwise. -/
theorem findVal_merge_content_of_mem (target source : SContent)
    (key : String) (v : JValue)
    (hnd : (source.map Prod.fst).Nodup) (h : findVal source key = some v) :
    findVal (merge_content target source) key =
      mergeLookup (findVal target key) v := by
  induction source generalizing target with
  | nil => simp [findVal] at h
  | cons hd rest ih =>
    obtain ⟨k, w⟩ := hd
    simp only [List.map_cons, List.nodup_cons] at hnd
    by_cases hkey : k = key
    · subst hkey
      have hv : w = v := by simpa [findVal] using h
      subst hv
      have hrest : findVal rest k = none :=
        findVal_eq_none_of_not_mem _ _ hnd.1
      rw [merge_content, findVal_merge_content_of_not_mem _ _ _ hrest,
        findVal_mergeStep_self]
    · have hr : findVal rest key = some v := by simpa [findVal, hkey] using h
      rw [merge_content, ih _ hnd.2 hr,
        findVal_mergeStep_ne _ _ _ _ (Ne.symm hkey)]

/-- C5: `_merge_content` applies source over target.  Merging an empty source
leaves the target unchanged; the reference example
`merge(\x7ba:\x7bb:1,c:2\x7d\x7d, \x7ba:\x7bb:9\x7d\x7d)` yields
`\x7ba:\x7bb:9,c:2\x7d\x7d`; and for every key, a key unbound in the source
keeps its target value, while a key bound in the source (source keys
distinct, as Python dict keys are) is deep-merged when both sides hold
mappings and overwritten by the source value otherwise — including creation
of keys absent from the target. -/
theorem C5_recursive_merge :
    (∀ t : SContent, merge_content t [] = t) ∧
    (merge_content
        [("a", JValue.obj [("b", JValue.num 1), ("c", JValue.num 2)])]
        [("a", JValue.obj [("b", JValue.num 9)])] =
      [("a", JValue.obj [("b", JValue.num 9), ("c", JValue.num 2)])]) ∧
    (∀ (t s : SContent) (key : String),
      (s.map Prod.fst).Nodup →
      findVal (merge_content t s) key =
        match findVal s key with
        | none => findVal t key
        | some sv => mergeLookup (findVal t key) sv) := by
  refine ⟨fun t => by rw [merge_content], ?_, ?_⟩
  · simp [merge_content, mergeStep, findVal, setKey]
  · intro t s key hnd
    cases hs : findVal s key with
    | none => simpa using findVal_merge_content_of_not_mem t s key hs
    | some sv => simpa using findVal_merge_content_of_mem t s key sv hnd hs

/-- Closed instance of `C5_recursive_merge`: the Nodup hypothesis of the
lookup characterization discharged on concrete content. -/
theorem C5_recursive_merge_witness :
    findVal
        (merge_content [("x", JValue.num 1)]
          [("x", JValue.num 2), ("y", JValue.str "s")]) "y" =
      some (JValue.str "s") := by
  have h := C5_recursive_merge.2.2 [("x", JValue.num 1)]
    [("x", JValue.num 2), ("y", JValue.str "s")] "y" (by simp)
  simpa [findVal, mergeLookup] using h

/-- A ticket as produced by the Jira/Linear connectors
(integrations/jira.py:23-64, integrations/linear.py). -/
structure Ticket where
  id : String
  title : String
  description : String
  status : String
  priority : String
  assignee : String
  deriving DecidableEq

/-- The unified snapshot dictionary built by `collect_all_content`
(services/sync_service.py:47-52) and consumed by the alignment pipeline:
four fixed slots `prd`, `prfaq`, `strategy`, `tickets`. -/
structure ContentDict where
  prd : SContent
  prfaq : SContent
  strategy : SContent
  tickets : List Ticket

/-- `_determine_processing_method` (enhanced_alignment_service.py:45-65):
count sections over all four slots (a ticket list contributes its length,
a document slot its key count) and how many slots are truthy (non-empty);
minimal content goes to the single-call path. -/
def determine_processing_method (content : ContentDict) : String :=
  let total_sections :=
    content.prd.length + content.prfaq.length + content.strategy.length +
      content.tickets.length
  let has_multiple_doc_types :=
    (if content.prd.isEmpty then 0 else 1) +
      (if content.prfaq.isEmpty then 0 else 1) +
      (if content.strategy.isEmpty then 0 else 1) +
      (if content.tickets.isEmpty then 0 else 1)
  if total_sections < 5 ∨ has_multiple_doc_types < 2 then "simple"
  else "self_critique"

/-- An advisory enhancement hint (enhanced_alignment_service.py:224-248). -/
structure EnhancementHint where
  document_type : String
  suggestion : String
  priority : String
  deriving DecidableEq

/-- The hint emitted for an under-specified PRD. -/
def prdEnhancementHint : EnhancementHint :=
  { document_type := "prd",
    suggestion :=
      "PRD appears incomplete. Consider using DocMint to enhance structure and clarity.",
    priority := "Medium" }

/-- The hint emitted for an under-specified strategy document. -/
def strategyEnhancementHint : EnhancementHint :=
  { document_type := "strategy",
    suggestion :=
      "Strategy document could be more comprehensive. DocMint can help structure and enhance it.",
    priority := "Medium" }

/-- The hint emitted for a PRFAQ with a thin FAQ list. -/
def prfaqEnhancementHint : EnhancementHint :=
  { document_type := "prfaq",
    suggestion :=
      "PRFAQ could benefit from more comprehensive FAQs. DocMint can help generate better customer messaging.",
    priority := "Low" }

/-- `_check_for_enhancement_needs` (enhanced_alignment_service.py:217-250):
a hint for a truthy (non-empty) PRD with fewer than 3 sections, for a truthy
strategy slot with fewer than 2 sections, and for a truthy PRFAQ whose
`frequently_asked_questions` value (defaulting to the empty list when the
key is absent) is a list with fewer than 3 entries. -/
def check_for_enhancement_needs (content : ContentDict) :
    List EnhancementHint :=
  (if content.prd.length ≠ 0 ∧ content.prd.length < 3 then
    [prdEnhancementHint] else []) ++
  (if content.strategy.length ≠ 0 ∧ content.strategy.length < 2 then
    [strategyEnhancementHint] else []) ++
  (if content.prfaq.length ≠ 0 then
    match findVal content.prfaq "frequently_asked_questions" with
    | some (JValue.arr faqs) =>
      if faqs.length < 3 then [prfaqEnhancementHint] else []
    | some _ => []
    | none => [prfaqEnhancementHint]
  else [])

/-- The audit trail of the three raw generation texts kept by the
self-critique path (enhanced_alignment_service.py:162-166). -/
structure ProcessDetails where
  initial_response : String
  critique : String
  enhanced_response : String
  deriving DecidableEq

/-- The `AlignmentResult` dictionary every pipeline entry point returns;
`process_details` is absent (`none`) outside the fully successful
self-critique path. -/
structure AlignmentResult where
  analysis : JValue
  processing_method : String
  api_calls_used : Nat
  enhancement_suggestions : List EnhancementHint
  process_details : Option ProcessDetails

/-- The ASCII left curly bracket, written via its code point. -/
def openBrace : Char := Char.ofNat 123

/-- The ASCII right curly bracket, written via its code point. -/
def closeBrace : Char := Char.ofNat 125

/-- Index of the first occurrence of `c` in `cs`. -/
def firstIdxOf (c : Char) (cs : List Char) : Option Nat :=
  cs.findIdx? (· = c)

/-- Index of the last occurrence of `c` in `cs`. -/
def lastIdxOf (c : Char) (cs : List Char) : Option Nat :=
  (cs.reverse.findIdx? (· = c)).map (fun j => cs.length - 1 - j)

/-- The substring captured by the greedy regex search of
`_extract_json_from_response` (enhanced_alignment_service.py:313): the span
from the first opening brace to the last closing brace, when the latter
comes after the former; `none` when the pattern does not match. -/
def jsonCandidate (cs : List Char) : Option (List Char) :=
  match firstIdxOf openBrace cs, lastIdxOf closeBrace cs with
  | some i, some j =>
    if i < j then some ((cs.drop i).take (j - i + 1)) else none
  | _, _ => none

/-- The fixed minimal payload `_extract_json_from_response` falls back to
(enhanced_alignment_service.py:321-326). -/
def basicAnalysisPayload : JValue :=
  JValue.obj
    [("alignment_score", JValue.num 5),
     ("critical_misalignments", JValue.arr []),
     ("suggestions", JValue.arr []),
     ("overall_assessment",
      JValue.str "Alignment analysis completed with basic processing.")]

/-- `_extract_json_from_response` (enhanced_alignment_service.py:303-326) at
response-text level.  `parse` abstracts `json.loads`, returning `none` on a
`JSONDecodeError`. -/
def extract_json_from_response (parse : List Char → Option JValue)
    (text : List Char) : JValue :=
  match jsonCandidate text with
  | some sub =>
    match parse sub with
    | some v => v
    | none => basicAnalysisPayload
  | none => basicAnalysisPayload

/-- `_fallback_analysis` (enhanced_alignment_service.py:328-347): the fixed
result returned when all processing fails. -/
def fallback_analysis : AlignmentResult :=
  { analysis := JValue.obj
      [("alignment_score", JValue.num 5),
       ("critical_misalignments", JValue.arr []),
       ("suggestions", JValue.arr
         [JValue.obj
           [("type", JValue.str "general"),
            ("action", JValue.str "review"),
            ("description",
             JValue.str "Review all documents for consistency and alignment"),
            ("priority", JValue.str "Medium"),
            ("source", JValue.str "all"),
            ("target", JValue.str "all")]]),
       ("overall_assessment",
        JValue.str
          "Basic alignment check completed. Consider manual review of document consistency.")],
    processing_method := "fallback",
    api_calls_used := 0,
    enhancement_suggestions := [],
    process_details := none }

/-- `_package_simple_result` (enhanced_alignment_service.py:252-260): package
the initial generation text when a later self-critique call fails. -/
def package_simple_result (parse : List Char → Option JValue)
    (result_text : String) (content : ContentDict) (api_calls : Nat) :
    AlignmentResult :=
  { analysis := extract_json_from_response parse result_text.data,
    processing_method := "simple_fallback",
    api_calls_used := api_calls,
    enhancement_suggestions := check_for_enhancement_needs content,
    process_details := none }

/-- `_simple_alignment_analysis` (enhanced_alignment_service.py:67-83).  The
generation backend `_call_claude_api` is abstracted as `api`, mapping the
index of the issued call to the text of its response, or `none` when the
call fails. -/
def simple_alignment_analysis (api : Nat → Option String)
    (parse : List Char → Option JValue) (content : ContentDict) :
    AlignmentResult :=
  match api 0 with
  | some response =>
    { analysis := extract_json_from_response parse response.data,
      processing_method := "simple",
      api_calls_used := 1,
      enhancement_suggestions := check_for_enhancement_needs content,
      process_details := none }
  | none => fallback_analysis

/-- `_self_critique_alignment_analysis` (enhanced_alignment_service.py:85-171):
generate, critique, refine, with graceful degradation after each failed
call.  `api n` is the outcome of the `n`-th issued generation call. -/
def self_critique_alignment_analysis (api : Nat → Option String)
    (parse : List Char → Option JValue) (content : ContentDict) :
    AlignmentResult :=
  match api 0 with
  | none => fallback_analysis
  | some initial_text =>
    match api 1 with
    | none => package_simple_result parse initial_text content 2
    | some critique_text =>
      match api 2 with
      | none => package_simple_result parse initial_text content 3
      | some enhanced_text =>
        { analysis := extract_json_from_response parse enhanced_text.data,
          processing_method := "self_critique",
          api_calls_used := 3,
          enhancement_suggestions := check_for_enhancement_needs content,
          process_details := some
            { initial_response := initial_text.take 500 ++ "...",
              critique := critique_text,
              enhanced_response := enhanced_text.take 500 ++ "..." } }

/-- `analyze_alignment_with_critique` (enhanced_alignment_service.py:20-43).
`loads` abstracts `json.loads` of the snapshot string together with the
shape checks of the downstream code: it is `none` whenever loading raises —
the case the outer handler turns into the fixed fallback result. -/
def analyze_alignment_with_critique (api : Nat → Option String)
    (parse : List Char → Option JValue)
    (loads : String → Option ContentDict) (project_content : String) :
    AlignmentResult :=
  match loads project_content with
  | none => fallback_analysis
  | some content =>
    if determine_processing_method content = "simple" then
      simple_alignment_analysis api parse content
    else
      self_critique_alignment_analysis api parse content

/-- Total structured sections of a snapshot, counted as the spec describes:
the ticket list contributes its length, each document slot its key count. -/
def totalSections (content : ContentDict) : Nat :=
  content.prd.length + content.prfaq.length + content.strategy.length +
    content.tickets.length

/-- How many of the four slots are non-empty, as the spec counts them. -/
def nonEmptySlots (content : ContentDict) : Nat :=
  (if content.prd.length ≠ 0 then 1 else 0) +
    (if content.prfaq.length ≠ 0 then 1 else 0) +
    (if content.strategy.length ≠ 0 then 1 else 0) +
    (if content.tickets.length ≠ 0 then 1 else 0)

/-- C2: for every four-slot content dictionary, strategy selection returns
"simple" exactly when the total section count is below 5 or fewer than 2
slots are non-empty, and returns "self_critique" in every other case. -/
theorem C2_determine_processing_method (content : ContentDict) :
    (determine_processing_method content = "simple" ↔
      totalSections content < 5 ∨ nonEmptySlots content < 2) ∧
    (determine_processing_method content = "self_critique" ↔
      ¬ (totalSections content < 5 ∨ nonEmptySlots content < 2)) := by
  unfold determine_processing_method totalSections nonEmptySlots
  by_cases h :
      content.prd.length + content.prfaq.length + content.strategy.length +
          content.tickets.length < 5 ∨
        (if content.prd.isEmpty then 0 else 1) +
            (if content.prfaq.isEmpty then 0 else 1) +
            (if content.strategy.isEmpty then 0 else 1) +
            (if content.tickets.isEmpty then 0 else 1) < 2
  all_goals
    simp only [List.isEmpty_iff_length_eq_zero] at *
  · rw [if_pos h]
    constructor
    · simpa using h
    · constructor
      · intro hc
        exact absurd hc (by decide)
      · intro hc
        split_ifs at *
        all_goals omega
  · rw [if_neg h]
    constructor
    · constructor
      · intro hc
        exact absurd hc.symm (by decide)
      · intro hc
        split_ifs at *
        all_goals omega
    · simp only [iff_true_intro rfl, true_iff]
      intro hc
      apply h
      rcases hc with hc | hc
      · exact Or.inl hc
      · right
        split_ifs at *
        all_goals omega

/-- C1: the self-critique path's four terminal outcomes.  A failed first call
yields the fixed fallback (`fallback`, 0 calls); a failed second call
packages the first call's extracted analysis (`simple_fallback`, 2 calls); a
failed third call packages the first call's extracted analysis
(`simple_fallback`, 3 calls); three successes yield `self_critique`, 3
calls, with the process details populated. -/
theorem C1_self_critique_outcomes (api : Nat → Option String)
    (parse : List Char → Option JValue) (content : ContentDict) :
    (api 0 = none →
      self_critique_alignment_analysis api parse content =
        fallback_analysis ∧
      (self_critique_alignment_analysis api parse content).processing_method
          = "fallback" ∧
      (self_critique_alignment_analysis api parse content).api_calls_used
          = 0) ∧
    (∀ t1, api 0 = some t1 → api 1 = none →
      self_critique_alignment_analysis api parse content =
        package_simple_result parse t1 content 2 ∧
      (self_critique_alignment_analysis api parse content).processing_method
          = "simple_fallback" ∧
      (self_critique_alignment_analysis api parse content).api_calls_used
          = 2 ∧
      (self_critique_alignment_analysis api parse content).analysis =
        extract_json_from_response parse t1.data) ∧
    (∀ t1 t2, api 0 = some t1 → api 1 = some t2 → api 2 = none →
      self_critique_alignment_analysis api parse content =
        package_simple_result parse t1 content 3 ∧
      (self_critique_alignment_analysis api parse content).processing_method
          = "simple_fallback" ∧
      (self_critique_alignment_analysis api parse content).api_calls_used
          = 3 ∧
      (self_critique_alignment_analysis api parse content).analysis =
        extract_json_from_response parse t1.data) ∧
    (∀ t1 t2 t3, api 0 = some t1 → api 1 = some t2 → api 2 = some t3 →
      (self_critique_alignment_analysis api parse content).processing_method
          = "self_critique" ∧
      (self_critique_alignment_analysis api parse content).api_calls_used
          = 3 ∧
      (self_critique_alignment_analysis api parse content).process_details =
        some
          { initial_response := t1.take 500 ++ "...",
            critique := t2,
            enhanced_response := t3.take 500 ++ "..." }) := by
  refine ⟨fun h0 => ?_, fun t1 h0 h1 => ?_, fun t1 t2 h0 h1 h2 => ?_,
    fun t1 t2 t3 h0 h1 h2 => ?_⟩
  · simp [self_critique_alignment_analysis, h0, fallback_analysis]
  · simp [self_critique_alignment_analysis, h0, h1, package_simple_result]
  · simp [self_critique_alignment_analysis, h0, h1, h2, package_simple_result]
  · simp [self_critique_alignment_analysis, h0, h1, h2]

/-- Closed instance of `C1_self_critique_outcomes`: each of the four
degradation scenarios evaluated on a concrete oracle. -/
theorem C1_self_critique_outcomes_witness :
    (self_critique_alignment_analysis (fun _ => none) (fun _ => none)
        (ContentDict.mk [] [] [] [])).processing_method = "fallback" ∧
    (self_critique_alignment_analysis
        (fun n => if n = 0 then some "A" else none) (fun _ => none)
        (ContentDict.mk [] [] [] [])).api_calls_used = 2 ∧
    (self_critique_alignment_analysis
        (fun n => if n = 2 then none else some "A") (fun _ => none)
        (ContentDict.mk [] [] [] [])).api_calls_used = 3 ∧
    (self_critique_alignment_analysis (fun _ => some "A") (fun _ => none)
        (ContentDict.mk [] [] [] [])).processing_method = "self_critique" := by
  refine ⟨?_, ?_, ?_, ?_⟩
  · exact ((C1_self_critique_outcomes (fun _ => none) (fun _ => none)
      (ContentDict.mk [] [] [] [])).1 rfl).2.1
  · exact ((C1_self_critique_outcomes
      (fun n => if n = 0 then some "A" else none) (fun _ => none)
      (ContentDict.mk [] [] [] [])).2.1 "A" rfl rfl).2.2.1
  · exact ((C1_self_critique_outcomes
      (fun n => if n = 2 then none else some "A") (fun _ => none)
      (ContentDict.mk [] [] [] [])).2.2.1 "A" "A" rfl rfl rfl).2.2.1
  · exact ((C1_self_critique_outcomes (fun _ => some "A") (fun _ => none)
      (ContentDict.mk [] [] [] [])).2.2.2 "A" "A" "A" rfl rfl rfl).1

/-- C3: `analyze_alignment_with_critique` is a total Lean function — every
input, for every behaviour of the backend and of JSON parsing, yields an
`AlignmentResult`, never an exception — and whenever loading the input
string fails (non-JSON text, or any shape the downstream dictionary code
would reject) the result is exactly the fixed fallback: score 5, no critical
misalignments, one generic review-all-documents suggestion, method
`fallback`, 0 api calls. -/
theorem C3_total_failure_fallback (api : Nat → Option String)
    (parse : List Char → Option JValue)
    (loads : String → Option ContentDict) (project_content : String)
    (h : loads project_content = none) :
    analyze_alignment_with_critique api parse loads project_content =
      fallback_analysis ∧
    (analyze_alignment_with_critique api parse loads
        project_content).analysis =
      JValue.obj
        [("alignment_score", JValue.num 5),
         ("critical_misalignments", JValue.arr []),
         ("suggestions", JValue.arr
           [JValue.obj
             [("type", JValue.str "general"),
              ("action", JValue.str "review"),
              ("description",
               JValue.str "Review all documents for consistency and alignment"),
              ("priority", JValue.str "Medium"),
              ("source", JValue.str "all"),
              ("target", JValue.str "all")]]),
         ("overall_assessment",
          JValue.str
            "Basic alignment check completed. Consider manual review of document consistency.")] ∧
    (analyze_alignment_with_critique api parse loads
        project_content).processing_method = "fallback" ∧
    (analyze_alignment_with_critique api parse loads
        project_content).api_calls_used = 0 := by
  refine ⟨?_, ?_, ?_, ?_⟩ <;>
    simp [analyze_alignment_with_critique, h, fallback_analysis]

/-- Closed instance of `C3_total_failure_fallback` on a non-JSON input. -/
theorem C3_total_failure_fallback_witness :
    analyze_alignment_with_critique (fun _ => none) (fun _ => none)
        (fun _ => none) "this is not JSON" = fallback_analysis :=
  (C3_total_failure_fallback (fun _ => none) (fun _ => none)
    (fun _ => none) "this is not JSON" rfl).1

/-- C9 as frozen is false on the code: the all-empty snapshot has a `prd`
slot with fewer than 3 sections (and a strategy slot with fewer than 2),
yet `_check_for_enhancement_needs` emits no hint at all, because each check
first requires the slot to be truthy (non-empty). -/
theorem C9_counterexample :
    (ContentDict.mk [] [] [] []).prd.length < 3 ∧
      check_for_enhancement_needs (ContentDict.mk [] [] [] []) = [] := by
  constructor
  · simp
  · simp [check_for_enhancement_needs]

/-- C9 amended: a hint is emitted exactly for a non-empty PRD with fewer
than 3 sections, for a non-empty strategy slot with fewer than 2 sections,
and for a non-empty PRFAQ whose `frequently_asked_questions` value — the
empty list when the key is absent — is a list with fewer than 3 entries;
both processing paths attach exactly these advisory hints to the result. -/
theorem C9_enhancement_hints (content : ContentDict) :
    (prdEnhancementHint ∈ check_for_enhancement_needs content ↔
      content.prd.length ≠ 0 ∧ content.prd.length < 3) ∧
    (strategyEnhancementHint ∈ check_for_enhancement_needs content ↔
      content.strategy.length ≠ 0 ∧ content.strategy.length < 2) ∧
    (prfaqEnhancementHint ∈ check_for_enhancement_needs content ↔
      content.prfaq.length ≠ 0 ∧
        (match findVal content.prfaq "frequently_asked_questions" with
         | some (JValue.arr faqs) => faqs.length < 3
         | some _ => False
         | none => True)) ∧
    (∀ api parse t, api 0 = some t →
      (simple_alignment_analysis api parse content).enhancement_suggestions =
        check_for_enhancement_needs content) ∧
    (∀ api parse t1 t2 t3,
      api 0 = some t1 → api 1 = some t2 → api 2 = some t3 →
      (self_critique_alignment_analysis api parse
          content).enhancement_suggestions =
        check_for_enhancement_needs content) := by
  refine ⟨?_, ?_, ?_, fun api parse t h0 => ?_,
    fun api parse t1 t2 t3 h0 h1 h2 => ?_⟩
  · simp only [check_for_enhancement_needs, List.mem_append]
    constructor
    · intro hm
      rcases hm with (hm | hm) | hm
      · split_ifs at hm with hc
        · exact hc
        · simp at hm
      · split_ifs at hm <;>
          simp [prdEnhancementHint, strategyEnhancementHint] at hm
      · split_ifs at hm with hc
        · split at hm
          · split_ifs at hm <;>
              simp [prdEnhancementHint, prfaqEnhancementHint] at hm
          · simp at hm
          · simp [prdEnhancementHint, prfaqEnhancementHint] at hm
        · simp at hm
    · intro hc
      left
      left
      simp [hc]
  · simp only [check_for_enhancement_needs, List.mem_append]
    constructor
    · intro hm
      rcases hm with (hm | hm) | hm
      · split_ifs at hm <;>
          simp [prdEnhancementHint, strategyEnhancementHint] at hm
      · split_ifs at hm with hc
        · exact hc
        · simp at hm
      · split_ifs at hm with hc
        · split at hm
          · split_ifs at hm <;>
              simp [strategyEnhancementHint, prfaqEnhancementHint] at hm
          · simp at hm
          · simp [strategyEnhancementHint, prfaqEnhancementHint] at hm
        · simp at hm
    · intro hc
      left
      right
      simp [hc]
  · simp only [check_for_enhancement_needs, List.mem_append]
    constructor
    · intro hm
      rcases hm with (hm | hm) | hm
      · split_ifs at hm <;>
          simp [prdEnhancementHint, prfaqEnhancementHint] at hm
      · split_ifs at hm <;>
          simp [strategyEnhancementHint, prfaqEnhancementHint] at hm
      · split_ifs at hm with hc
        · refine ⟨hc, ?_⟩
          split at hm
          · split_ifs at hm with hf
            · exact hf
            · simp at hm
          · simp at hm
          · trivial
        · simp at hm
    · intro hc
      right
      rw [if_pos hc.1]
      have h2 := hc.2
      split at h2
      · simp [h2]
      · exact absurd h2 (by simp)
      · simp
  · simp [simple_alignment_analysis, h0]
  · simp [self_critique_alignment_analysis, h0, h1, h2]

/-- When the prefix holds no opening brace and the middle part starts with
one, the first opening brace of the concatenation sits at the end of the
prefix. -/
theorem firstIdxOf_wrap (pre ob post : List Char)
    (hpre : openBrace ∉ pre) (hhead : ob.head? = some openBrace) :
    firstIdxOf openBrace (pre ++ ob ++ post) = some pre.length := by
  cases ob with
  | nil => simp at hhead
  | cons c cs =>
    have hc : c = openBrace := by simpa using hhead
    subst hc
    have hnone : pre.findIdx? (· = openBrace) = none := by
      rw [List.findIdx?_eq_none_iff]
      intro x hx
      simp only [decide_eq_false_iff_not]
      exact fun e => hpre (e ▸ hx)
    simp [firstIdxOf, List.append_assoc, List.findIdx?_append, hnone]

/-- When the suffix holds no closing brace and the middle part ends with
one, the last closing brace of the concatenation is the middle's last
character. -/
theorem lastIdxOf_wrap (pre ob post : List Char)
    (hpost : closeBrace ∉ post) (hlast : ob.getLast? = some closeBrace) :
    lastIdxOf closeBrace (pre ++ ob ++ post) =
      some (pre.length + ob.length - 1) := by
  have hrev : ob.reverse.head? = some closeBrace := by
    rwa [List.head?_reverse]
  cases hro : ob.reverse with
  | nil => simp [hro] at hrev
  | cons c cs =>
    have hc : c = closeBrace := by simp [hro] at hrev; exact hrev
    subst hc
    have hnone : post.reverse.findIdx? (· = closeBrace) = none := by
      rw [List.findIdx?_eq_none_iff]
      intro x hx
      simp only [decide_eq_false_iff_not]
      exact fun e => hpost (e ▸ (List.mem_reverse.mp hx))
    have hlen : ob.length = cs.length + 1 := by
      have := congrArg List.length hro
      simpa using this
    rw [lastIdxOf, List.reverse_append, List.reverse_append,
      List.findIdx?_append, hnone]
    simp [hro, hlen]
    omega

/-- The greedy regex capture on prose-wrapped JSON is exactly the wrapped
object text. -/
theorem jsonCandidate_wrap (pre ob post : List Char)
    (hpre : openBrace ∉ pre) (hpost : closeBrace ∉ post)
    (hhead : ob.head? = some openBrace) (hlast : ob.getLast? = some closeBrace) :
    jsonCandidate (pre ++ ob ++ post) = some ob := by
  have hob2 : 2 ≤ ob.length := by
    match ob, hhead, hlast with
    | [c], hh, hl =>
      have h1 : c = openBrace := by simpa using hh
      have h2 : c = closeBrace := by simpa using hl
      rw [h1] at h2
      exact absurd h2 (by decide)
    | c1 :: c2 :: cs, _, _ => simp
  rw [jsonCandidate, firstIdxOf_wrap pre ob post hpre hhead,
    lastIdxOf_wrap pre ob post hpost hlast]
  have hlt : pre.length < pre.length + ob.length - 1 := by omega
  show (if pre.length < pre.length + ob.length - 1 then
      some (((pre ++ ob ++ post).drop pre.length).take
        (pre.length + ob.length - 1 - pre.length + 1))
    else none) = some ob
  rw [if_pos hlt]
  have hdrop : (pre ++ ob ++ post).drop pre.length = ob ++ post := by
    rw [List.append_assoc]
    exact List.drop_left pre (ob ++ post)
  have htake : pre.length + ob.length - 1 - pre.length + 1 = ob.length := by
    omega
  rw [hdrop, htake, List.take_left]

/-- C6: JSON extraction takes the span from the first opening brace to the
last closing brace and parses it; a parsed object is returned as is — in
particular for a response wrapping one JSON object in brace-free prose
before and after it — and the fixed minimal payload is returned when no such
span exists or parsing fails.  The embedding is a total function: extraction
never raises. -/
theorem C6_json_extraction :
    (∀ (parse : List Char → Option JValue) text sub v,
      jsonCandidate text = some sub → parse sub = some v →
        extract_json_from_response parse text = v) ∧
    (∀ (parse : List Char → Option JValue) text sub,
      jsonCandidate text = some sub → parse sub = none →
        extract_json_from_response parse text = basicAnalysisPayload) ∧
    (∀ (parse : List Char → Option JValue) text,
      jsonCandidate text = none →
        extract_json_from_response parse text = basicAnalysisPayload) ∧
    (∀ (parse : List Char → Option JValue) (pre ob post : List Char) v,
      openBrace ∉ pre → closeBrace ∉ post →
      ob.head? = some openBrace → ob.getLast? = some closeBrace →
      parse ob = some v →
        extract_json_from_response parse (pre ++ ob ++ post) = v) := by
  refine ⟨fun parse text sub v hc hp => ?_, fun parse text sub hc hp => ?_,
    fun parse text hc => ?_, fun parse pre ob post v h1 h2 h3 h4 hp => ?_⟩
  · simp [extract_json_from_response, hc, hp]
  · simp [extract_json_from_response, hc, hp]
  · simp [extract_json_from_response, hc]
  · have hc : jsonCandidate (pre ++ (ob ++ post)) = some ob := by
      rw [← List.append_assoc]
      exact jsonCandidate_wrap pre ob post h1 h2 h3 h4
    simp [extract_json_from_response, hc, hp]

/-- Closed instance of `C6_json_extraction`: a JSON object wrapped in prose
is recovered by extraction. -/
theorem C6_json_extraction_witness :
    extract_json_from_response
        (fun cs =>
          if cs = openBrace :: "\"alignment_score\": 7".data ++ [closeBrace]
          then some (JValue.num 7) else none)
        ("The JSON: ".data ++
          (openBrace :: "\"alignment_score\": 7".data ++ [closeBrace]) ++
          " Done.".data) = JValue.num 7 := by
  refine C6_json_extraction.2.2.2
    (fun cs =>
      if cs = openBrace :: "\"alignment_score\": 7".data ++ [closeBrace]
      then some (JValue.num 7) else none)
    "The JSON: ".data
    (openBrace :: "\"alignment_score\": 7".data ++ [closeBrace])
    " Done.".data (JValue.num 7) ?_ ?_ ?_ ?_ ?_
  · decide
  · decide
  · rfl
  · decide
  · simp

/-- Closed instance of `C9_enhancement_hints` on a one-section PRD. -/
theorem C9_enhancement_hints_witness :
    prdEnhancementHint ∈
      check_for_enhancement_needs
        (ContentDict.mk [("overview", JValue.str "x")] [] [] []) := by
  refine (C9_enhancement_hints
    (ContentDict.mk [("overview", JValue.str "x")] [] [] [])).1.mpr ?_
  simp

/-- The Google-Docs connector as `collect_all_content` and
`handle_docs_update` consume it (integrations/google_docs.py:144-195).  Each
call may fail — the connector being an external collaborator that can be
unavailable — modelled by `Except`: an `error` outcome is a raised
exception. -/
structure GoogleDocsConn where
  get_connected_docs : Except String (List (String × String))
  get_document_type : JValue → Except String (Option String)
  get_document_content : JValue → Except String SContent

/-- A ticket-producing connector (Jira or Linear) as `collect_all_content`
consumes it. -/
structure TicketConn where
  get_tickets : Except String (List Ticket)

/-- A Confluence page (integrations/confluence.py:23-43):
`extract_structured_content(page)` returns the page's `content` mapping. -/
structure Page where
  id : String
  labels : List String
  content : SContent

/-- The Confluence connector as the sync service consumes it. -/
structure ConfluenceConn where
  get_pages : Except String (List Page)

/-- The integration slots of `SyncService` (services/sync_service.py:20-38):
each is `None` until `set_integrations` installs it. -/
structure SyncState where
  google_docs : Option GoogleDocsConn
  jira : Option TicketConn
  linear : Option TicketConn
  confluence : Option ConfluenceConn

/-- The Google-Docs loop of `collect_all_content`
(services/sync_service.py:55-70): fetch each connected document's content
and, when truthy, route it into the slot named by the document's type. -/
def collect_docs (gd : GoogleDocsConn) :
    List (String × String) → ContentDict → Except String ContentDict
  | [], content => .ok content
  | (doc_id, doc_type) :: rest, content =>
    match gd.get_document_content (JValue.str doc_id) with
    | .error e => .error e
    | .ok doc_content =>
      collect_docs gd rest
        (if doc_content.isEmpty then content
         else if doc_type = "prd" then { content with prd := doc_content }
         else if doc_type = "prfaq" then { content with prfaq := doc_content }
         else if doc_type = "strategy" then
           { content with strategy := doc_content }
         else content)

/-- The Google-Docs step of `collect_all_content`: skipped when the
integration is not set. -/
def collect_google_docs (gd? : Option GoogleDocsConn) (content : ContentDict) :
    Except String ContentDict :=
  match gd? with
  | none => .ok content
  | some gd =>
    match gd.get_connected_docs with
    | .error e => .error e
    | .ok docs => collect_docs gd docs content

/-- The Jira and Linear blocks of `collect_all_content`
(services/sync_service.py:72-78), identical in form: extend the tickets list
with the source's `get_tickets()` result; skipped when the integration is
not set. -/
def collect_tickets (tc? : Option TicketConn) (content : ContentDict) :
    Except String ContentDict :=
  match tc? with
  | none => .ok content
  | some t =>
    match t.get_tickets with
    | .error e => .error e
    | .ok ts => .ok { content with tickets := content.tickets ++ ts }

/-- The Confluence loop of `collect_all_content`
(services/sync_service.py:83-94): for each page labelled `strategy`,
recursively merge its structured content into the strategy slot. -/
def collect_confluence_pages :
    List Page → ContentDict → ContentDict
  | [], content => content
  | page :: rest, content =>
    collect_confluence_pages rest
      (if "strategy" ∈ page.labels then
        { content with strategy := merge_content content.strategy page.content }
       else content)

/-- The Confluence step of `collect_all_content`: skipped when the
integration is not set. -/
def collect_confluence (c? : Option ConfluenceConn) (content : ContentDict) :
    Except String ContentDict :=
  match c? with
  | none => .ok content
  | some c =>
    match c.get_pages with
    | .error e => .error e
    | .ok pages => .ok (collect_confluence_pages pages content)

/-- `collect_all_content` (services/sync_service.py:40-96): initialize the
four slots empty and visit Google Docs, Jira, Linear and Confluence in
order.  The body has no exception handler, so the first connector error
propagates (`error`) and aborts the remaining steps.  The Python function
returns `json.dumps(content)`; the serialization of the final dictionary is
not modelled. -/
def collect_all_content (st : SyncState) : Except String ContentDict :=
  match collect_google_docs st.google_docs (ContentDict.mk [] [] [] []) with
  | .error e => .error e
  | .ok content =>
    match collect_tickets st.jira content with
    | .error e => .error e
    | .ok content =>
      match collect_tickets st.linear content with
      | .error e => .error e
      | .ok content => collect_confluence st.confluence content

/-- One normalized added/modified/removed bucket of a `ChangeSet`. -/
structure Changes where
  added : List JValue
  modified : List JValue
  removed : List JValue

/-- A `ChangeSet`: a mapping from document type to its change bucket. -/
abbrev ChangeSet := List (String × Changes)

/-- `JiraIntegration.process_webhook` (integrations/jira.py:136-188).  The
`try` block's only possible exception is the attribute access
`payload.get('issue', \x7b\x7d).get('key')` on a non-mapping value; the
handler turns it, like a missing or falsy key, into `None`. -/
def jira_process_webhook (payload : JValue) : Option ChangeSet :=
  match payload with
  | .obj fields =>
    let event_type := findVal fields "webhookEvent"
    match (findVal fields "issue").getD (JValue.obj []) with
    | .obj issue_fields =>
      match findVal issue_fields "key" with
      | none => none
      | some issue_key =>
        if !jTruthy issue_key then none
        else
          match event_type with
          | some (JValue.str et) =>
            if et = "jira:issue_created" then
              some [("tickets", ⟨[issue_key], [], []⟩)]
            else if et = "jira:issue_updated" then
              some [("tickets", ⟨[], [issue_key], []⟩)]
            else if et = "jira:issue_deleted" then
              some [("tickets", ⟨[], [], [issue_key]⟩)]
            else none
          | _ => none
    | _ => none
  | _ => none

/-- `LinearIntegration.process_webhook` (integrations/linear.py:119-171),
the same shape over `action` and `data.id`. -/
def linear_process_webhook (payload : JValue) : Option ChangeSet :=
  match payload with
  | .obj fields =>
    let action := findVal fields "action"
    match (findVal fields "data").getD (JValue.obj []) with
    | .obj data_fields =>
      match findVal data_fields "id" with
      | none => none
      | some issue_id =>
        if !jTruthy issue_id then none
        else
          match action with
          | some (JValue.str a) =>
            if a = "create" then some [("tickets", ⟨[issue_id], [], []⟩)]
            else if a = "update" then some [("tickets", ⟨[], [issue_id], []⟩)]
            else if a = "remove" then some [("tickets", ⟨[], [], [issue_id]⟩)]
            else none
          | _ => none
    | _ => none
  | _ => none

/-- `ConfluenceIntegration.process_webhook` (integrations/confluence.py:127-187):
guard on `page.id`, look the page up, classify it by its labels and report
all of its section names under the event's bucket.  An exception anywhere in
the `try` block — including an unavailable page store — yields `None`. -/
def confluence_process_webhook (conn : ConfluenceConn) (payload : JValue) :
    Option ChangeSet :=
  match payload with
  | .obj fields =>
    let event_type := findVal fields "event"
    match (findVal fields "page").getD (JValue.obj []) with
    | .obj page_fields =>
      match findVal page_fields "id" with
      | none => none
      | some page_id =>
        if !jTruthy page_id then none
        else
          match conn.get_pages with
          | .error _ => none
          | .ok pages =>
            match
              (match page_id with
               | JValue.str s => pages.find? (fun p => p.id = s)
               | _ => none : Option Page) with
            | none => none
            | some page =>
              let doc_type :=
                if "strategy" ∈ page.labels then "strategy" else "generic"
              let keys := page.content.map (fun kv => JValue.str kv.1)
              match event_type with
              | some (JValue.str et) =>
                if et = "page_created" then some [(doc_type, ⟨keys, [], []⟩)]
                else if et = "page_updated" then
                  some [(doc_type, ⟨[], keys, []⟩)]
                else if et = "page_removed" then
                  some [(doc_type, ⟨[], [], keys⟩)]
                else none
              | _ => none
    | _ => none
  | _ => none

/-- `SyncService.handle_jira_update` (services/sync_service.py:113-127). -/
def handle_jira_update (st : SyncState) (data : JValue) : Option ChangeSet :=
  match st.jira with
  | none => none
  | some _ => jira_process_webhook data

/-- `SyncService.handle_linear_update` (services/sync_service.py:196-210). -/
def handle_linear_update (st : SyncState) (data : JValue) : Option ChangeSet :=
  match st.linear with
  | none => none
  | some _ => linear_process_webhook data

/-- `SyncService.handle_confluence_update`
(services/sync_service.py:180-194). -/
def handle_confluence_update (st : SyncState) (data : JValue) :
    Option ChangeSet :=
  match st.confluence with
  | none => none
  | some conn => confluence_process_webhook conn data

/-- `SyncService.handle_docs_update` (services/sync_service.py:129-178):
guard on `documentId`, resolve the document's type, fetch the updated
content, and diff it against the simulated previous version `\x7b\x7d` —
every current section lands in `added`, `modified` and `removed` stay empty
— returning the changes only when something changed.  The method has no
exception handler, so after the guard a missing integration or a failing
connector call propagates as `error`. -/
def handle_docs_update (st : SyncState) (data : JValue) :
    Except String (Option ChangeSet) :=
  match data with
  | .obj fields =>
    match findVal fields "documentId" with
    | none => .ok none
    | some doc_id =>
      if !jTruthy doc_id then .ok none
      else
        match st.google_docs with
        | none => .error "AttributeError"
        | some gd =>
          match gd.get_document_type doc_id with
          | .error e => .error e
          | .ok none => .ok none
          | .ok (some doc_type) =>
            if doc_type.isEmpty then .ok none
            else
              match gd.get_document_content doc_id with
              | .error e => .error e
              | .ok updated_content =>
                let added := updated_content.map (fun kv => JValue.str kv.1)
                if added.isEmpty then .ok none
                else .ok (some [(doc_type, ⟨added, [], []⟩)])
  | _ => .error "AttributeError"

/-- The document-routing loop never touches the tickets slot. -/
theorem collect_docs_tickets (gd : GoogleDocsConn)
    (docs : List (String × String)) (content c' : ContentDict)
    (h : collect_docs gd docs content = .ok c') :
    c'.tickets = content.tickets := by
  induction docs generalizing content with
  | nil =>
    simp only [collect_docs, Except.ok.injEq] at h
    rw [← h]
  | cons d rest ih =>
    obtain ⟨doc_id, doc_type⟩ := d
    simp only [collect_docs] at h
    cases hgc : gd.get_document_content (JValue.str doc_id) with
    | error e => rw [hgc] at h; exact absurd h (by simp)
    | ok doc_content =>
      rw [hgc] at h
      rw [ih _ h]
      split_ifs <;> rfl

/-- The Google-Docs step never touches the tickets slot. -/
theorem collect_google_docs_tickets (gd? : Option GoogleDocsConn)
    (content c' : ContentDict)
    (h : collect_google_docs gd? content = .ok c') :
    c'.tickets = content.tickets := by
  cases gd? with
  | none =>
    simp only [collect_google_docs, Except.ok.injEq] at h
    rw [← h]
  | some gd =>
    simp only [collect_google_docs] at h
    cases hdocs : gd.get_connected_docs with
    | error e => rw [hdocs] at h; exact absurd h (by simp)
    | ok docs => rw [hdocs] at h; exact collect_docs_tickets gd docs _ _ h

/-- The Confluence merge loop never touches the tickets slot. -/
theorem collect_confluence_pages_tickets (pages : List Page)
    (content : ContentDict) :
    (collect_confluence_pages pages content).tickets = content.tickets := by
  induction pages generalizing content with
  | nil => rfl
  | cons page rest ih =>
    rw [collect_confluence_pages, ih]
    split_ifs <;> rfl

/-- The Confluence step never touches the tickets slot. -/
theorem collect_confluence_tickets (c? : Option ConfluenceConn)
    (content c' : ContentDict)
    (h : collect_confluence c? content = .ok c') :
    c'.tickets = content.tickets := by
  cases c? with
  | none =>
    simp only [collect_confluence, Except.ok.injEq] at h
    rw [← h]
  | some c =>
    simp only [collect_confluence] at h
    cases hp : c.get_pages with
    | error e => rw [hp] at h; exact absurd h (by simp)
    | ok pages =>
      rw [hp] at h
      simp only [Except.ok.injEq] at h
      rw [← h]
      exact collect_confluence_pages_tickets pages content

/-- C7: whenever aggregation succeeds with both ticket sources registered,
the tickets slot is the Jira list followed by the Linear list — nothing
dropped, reordered or merged — and its length is the sum of the two. -/
theorem C7_tickets_concatenation (st : SyncState) (jc lc : TicketConn)
    (jt lt : List Ticket) (snap : ContentDict)
    (hj : st.jira = some jc) (hjt : jc.get_tickets = Except.ok jt)
    (hl : st.linear = some lc) (hlt : lc.get_tickets = Except.ok lt)
    (hres : collect_all_content st = .ok snap) :
    snap.tickets = jt ++ lt ∧
      snap.tickets.length = jt.length + lt.length := by
  rw [collect_all_content] at hres
  cases h1 : collect_google_docs st.google_docs (ContentDict.mk [] [] [] [])
    with
  | error e => simp [h1] at hres
  | ok c1 =>
    simp only [h1] at hres
    have h2 : collect_tickets st.jira c1 =
        .ok { c1 with tickets := c1.tickets ++ jt } := by
      rw [hj]
      simp [collect_tickets, hjt]
    simp only [h2] at hres
    have h3 : collect_tickets st.linear { c1 with tickets := c1.tickets ++ jt }
        = .ok { c1 with tickets := (c1.tickets ++ jt) ++ lt } := by
      rw [hl]
      simp [collect_tickets, hlt]
    simp only [h3] at hres
    have ht1 : c1.tickets = [] :=
      collect_google_docs_tickets _ _ _ h1
    have ht4 := collect_confluence_tickets _ _ _ hres
    simp only [ht1, List.nil_append] at ht4
    exact ⟨ht4, by rw [ht4]; simp⟩

/-- Closed instance of `C7_tickets_concatenation` on concrete ticket
sources. -/
theorem C7_tickets_concatenation_witness :
    (ContentDict.mk [] [] []
        [Ticket.mk "PROJ-1" "t1" "d1" "To Do" "High" "a",
         Ticket.mk "LIN-1" "t2" "d2" "Done" "Low" "b"]).tickets =
      [Ticket.mk "PROJ-1" "t1" "d1" "To Do" "High" "a"] ++
        [Ticket.mk "LIN-1" "t2" "d2" "Done" "Low" "b"] := by
  have h := C7_tickets_concatenation
    (SyncState.mk none
      (some (TicketConn.mk
        (Except.ok [Ticket.mk "PROJ-1" "t1" "d1" "To Do" "High" "a"])))
      (some (TicketConn.mk
        (Except.ok [Ticket.mk "LIN-1" "t2" "d2" "Done" "Low" "b"])))
      none)
    (TicketConn.mk
      (Except.ok [Ticket.mk "PROJ-1" "t1" "d1" "To Do" "High" "a"]))
    (TicketConn.mk
      (Except.ok [Ticket.mk "LIN-1" "t2" "d2" "Done" "Low" "b"]))
    [Ticket.mk "PROJ-1" "t1" "d1" "To Do" "High" "a"]
    [Ticket.mk "LIN-1" "t2" "d2" "Done" "Low" "b"]
    (ContentDict.mk [] [] []
      [Ticket.mk "PROJ-1" "t1" "d1" "To Do" "High" "a",
       Ticket.mk "LIN-1" "t2" "d2" "Done" "Low" "b"])
    rfl rfl rfl rfl (by rfl)
  exact h.1

/-- A state where Google Docs and Linear hold content but the Jira
connector raises on `get_tickets()`. -/
def partialFailureState : SyncState :=
  { google_docs := some
      { get_connected_docs := Except.ok [("doc1", "prd")],
        get_document_type := fun _ => Except.ok (some "prd"),
        get_document_content := fun _ =>
          Except.ok [("overview", JValue.str "x")] },
    jira := some { get_tickets := Except.error "ConnectionError" },
    linear := some
      { get_tickets :=
          Except.ok [Ticket.mk "LIN-1" "t" "d" "To Do" "Low" "a"] },
    confluence := none }

/-- C4 fails as stated: with Google Docs and Linear contributing content and
the Jira connector raising, `collect_all_content` aborts with the
connector's exception instead of returning a snapshot holding the other
sources' content. -/
theorem C4_counterexample :
    collect_all_content partialFailureState =
      Except.error "ConnectionError" := by
  rfl

/-- A Google-Docs connector that lists no documents: what an unset slot
degrades to. -/
def emptyGoogleDocsConn : GoogleDocsConn :=
  { get_connected_docs := Except.ok [],
    get_document_type := fun _ => Except.ok none,
    get_document_content := fun _ => Except.ok [] }

/-- A ticket connector with no tickets: what an unset slot degrades to. -/
def emptyTicketConn : TicketConn :=
  { get_tickets := Except.ok [] }

/-- A Confluence connector with no pages: what an unset slot degrades to. -/
def emptyConfluenceConn : ConfluenceConn :=
  { get_pages := Except.ok [] }

/-- The unset Jira/Linear step and the empty-connector step both pass the
accumulated content through unchanged. -/
theorem collect_tickets_skip (c1 : ContentDict) :
    collect_tickets none c1 = .ok c1 ∧
      collect_tickets (some emptyTicketConn) c1 = .ok c1 := by
  obtain ⟨p, q, r, t⟩ := c1
  exact ⟨rfl, by simp [collect_tickets, emptyTicketConn]⟩

/-- C4 amended: a connector error during `collect_all_content` propagates
and aborts the whole aggregation with that error as soon as the failing
connector's step runs — for each of the four connectors, since the body has
no per-source handler; a connector that is not set (`None`) is the only
degradation: its step passes the accumulated content through unchanged, so
aggregation behaves exactly as with a connector holding no items and the
remaining sources' content is still collected. -/
theorem C4_connector_error_aborts :
    (∀ (st : SyncState) (gd : GoogleDocsConn) (e : String),
      st.google_docs = some gd → gd.get_connected_docs = Except.error e →
      collect_all_content st = Except.error e) ∧
    (∀ (st : SyncState) (gd : GoogleDocsConn) (e : String)
        (doc_id doc_type : String) (rest : List (String × String)),
      st.google_docs = some gd →
      gd.get_connected_docs = Except.ok ((doc_id, doc_type) :: rest) →
      gd.get_document_content (JValue.str doc_id) = Except.error e →
      collect_all_content st = Except.error e) ∧
    (∀ (st : SyncState) (jc : TicketConn) (e : String) (c1 : ContentDict),
      collect_google_docs st.google_docs (ContentDict.mk [] [] [] []) =
        Except.ok c1 →
      st.jira = some jc → jc.get_tickets = Except.error e →
      collect_all_content st = Except.error e) ∧
    (∀ (st : SyncState) (lc : TicketConn) (e : String) (c1 c2 : ContentDict),
      collect_google_docs st.google_docs (ContentDict.mk [] [] [] []) =
        Except.ok c1 →
      collect_tickets st.jira c1 = Except.ok c2 →
      st.linear = some lc → lc.get_tickets = Except.error e →
      collect_all_content st = Except.error e) ∧
    (∀ (st : SyncState) (cc : ConfluenceConn) (e : String)
        (c1 c2 c3 : ContentDict),
      collect_google_docs st.google_docs (ContentDict.mk [] [] [] []) =
        Except.ok c1 →
      collect_tickets st.jira c1 = Except.ok c2 →
      collect_tickets st.linear c2 = Except.ok c3 →
      st.confluence = some cc → cc.get_pages = Except.error e →
      collect_all_content st = Except.error e) ∧
    (∀ st : SyncState, st.google_docs = none →
      collect_all_content st =
        collect_all_content
          { st with google_docs := some emptyGoogleDocsConn }) ∧
    (∀ st : SyncState, st.jira = none →
      collect_all_content st =
        collect_all_content { st with jira := some emptyTicketConn }) ∧
    (∀ st : SyncState, st.linear = none →
      collect_all_content st =
        collect_all_content { st with linear := some emptyTicketConn }) ∧
    (∀ st : SyncState, st.confluence = none →
      collect_all_content st =
        collect_all_content
          { st with confluence := some emptyConfluenceConn }) ∧
    (∀ lt : List Ticket,
      collect_all_content
          (SyncState.mk none none (some (TicketConn.mk (Except.ok lt)))
            none) =
        Except.ok (ContentDict.mk [] [] [] lt)) := by
  refine ⟨fun st gd e hgd hc => ?_,
    fun st gd e doc_id doc_type rest hgd hdocs hcontent => ?_,
    fun st jc e c1 h1 hj hjt => ?_,
    fun st lc e c1 c2 h1 h2 hl hlt => ?_,
    fun st cc e c1 c2 c3 h1 h2 h3 hcc hcp => ?_,
    fun st h => ?_, fun st h => ?_, fun st h => ?_, fun st h => ?_,
    fun lt => ?_⟩
  · have h1 : collect_google_docs st.google_docs (ContentDict.mk [] [] [] [])
        = Except.error e := by
      rw [hgd]
      simp [collect_google_docs, hc]
    rw [collect_all_content]
    simp [h1]
  · have h1 : collect_google_docs st.google_docs (ContentDict.mk [] [] [] [])
        = Except.error e := by
      rw [hgd]
      simp [collect_google_docs, hdocs, collect_docs, hcontent]
    rw [collect_all_content]
    simp [h1]
  · have h2 : collect_tickets st.jira c1 = Except.error e := by
      rw [hj]
      simp [collect_tickets, hjt]
    rw [collect_all_content]
    simp only [h1]
    simp [h2]
  · have h3 : collect_tickets st.linear c2 = Except.error e := by
      rw [hl]
      simp [collect_tickets, hlt]
    rw [collect_all_content]
    simp only [h1, h2]
    simp [h3]
  · have h4 : collect_confluence st.confluence c3 = Except.error e := by
      rw [hcc]
      simp [collect_confluence, hcp]
    rw [collect_all_content]
    simp only [h1, h2, h3]
    simp [h4]
  · obtain ⟨g, j, l, c⟩ := st
    simp only at h
    subst h
    rfl
  · obtain ⟨g, j, l, c⟩ := st
    simp only at h
    subst h
    cases h1 : collect_google_docs g (ContentDict.mk [] [] [] []) with
    | error e =>
      rw [collect_all_content, collect_all_content]
      simp only [h1]
    | ok c1 =>
      rw [collect_all_content, collect_all_content]
      simp only [h1, (collect_tickets_skip c1).1, (collect_tickets_skip c1).2]
  · obtain ⟨g, j, l, c⟩ := st
    simp only at h
    subst h
    cases h1 : collect_google_docs g (ContentDict.mk [] [] [] []) with
    | error e =>
      rw [collect_all_content, collect_all_content]
      simp only [h1]
    | ok c1 =>
      rw [collect_all_content, collect_all_content]
      simp only [h1]
      cases h2 : collect_tickets j c1 with
      | error e => simp only [h2]
      | ok c2 =>
        simp only [h2, (collect_tickets_skip c2).1,
          (collect_tickets_skip c2).2]
  · obtain ⟨g, j, l, c⟩ := st
    simp only at h
    subst h
    cases h1 : collect_google_docs g (ContentDict.mk [] [] [] []) with
    | error e =>
      rw [collect_all_content, collect_all_content]
      simp only [h1]
    | ok c1 =>
      rw [collect_all_content, collect_all_content]
      simp only [h1]
      cases h2 : collect_tickets j c1 with
      | error e => simp only [h2]
      | ok c2 =>
        simp only [h2]
        cases h3 : collect_tickets l c2 with
        | error e => simp only [h3]
        | ok c3 =>
          simp only [h3]
          rfl
  · simp [collect_all_content, collect_google_docs, collect_tickets,
      collect_confluence]

/-- Closed instance of `C4_connector_error_aborts`: each connector's error
propagated from a concrete state, and a concrete unset slot behaving as an
empty connector. -/
theorem C4_connector_error_aborts_witness :
    collect_all_content
        (SyncState.mk
          (some (GoogleDocsConn.mk (Except.error "Unavailable")
            (fun _ => Except.ok none) (fun _ => Except.ok [])))
          none none none) = Except.error "Unavailable" ∧
    collect_all_content
        (SyncState.mk
          (some (GoogleDocsConn.mk (Except.ok [("doc1", "prd")])
            (fun _ => Except.ok (some "prd"))
            (fun _ => Except.error "FetchFailed")))
          none none none) = Except.error "FetchFailed" ∧
    collect_all_content
        (SyncState.mk none
          (some (TicketConn.mk (Except.error "ConnectionError")))
          (some (TicketConn.mk (Except.ok []))) none) =
      Except.error "ConnectionError" ∧
    collect_all_content
        (SyncState.mk none none
          (some (TicketConn.mk (Except.error "Timeout"))) none) =
      Except.error "Timeout" ∧
    collect_all_content
        (SyncState.mk none none none
          (some (ConfluenceConn.mk (Except.error "HTTP 503")))) =
      Except.error "HTTP 503" ∧
    collect_all_content (SyncState.mk none none none none) =
      collect_all_content
        (SyncState.mk none (some emptyTicketConn) none none) := by
  refine ⟨?_, ?_, ?_, ?_, ?_, ?_⟩
  · exact C4_connector_error_aborts.1
      (SyncState.mk
        (some (GoogleDocsConn.mk (Except.error "Unavailable")
          (fun _ => Except.ok none) (fun _ => Except.ok [])))
        none none none)
      (GoogleDocsConn.mk (Except.error "Unavailable")
        (fun _ => Except.ok none) (fun _ => Except.ok []))
      "Unavailable" rfl rfl
  · exact C4_connector_error_aborts.2.1
      (SyncState.mk
        (some (GoogleDocsConn.mk (Except.ok [("doc1", "prd")])
          (fun _ => Except.ok (some "prd"))
          (fun _ => Except.error "FetchFailed")))
        none none none)
      (GoogleDocsConn.mk (Except.ok [("doc1", "prd")])
        (fun _ => Except.ok (some "prd"))
        (fun _ => Except.error "FetchFailed"))
      "FetchFailed" "doc1" "prd" [] rfl rfl rfl
  · exact C4_connector_error_aborts.2.2.1
      (SyncState.mk none
        (some (TicketConn.mk (Except.error "ConnectionError")))
        (some (TicketConn.mk (Except.ok []))) none)
      (TicketConn.mk (Except.error "ConnectionError")) "ConnectionError"
      (ContentDict.mk [] [] [] []) rfl rfl rfl
  · exact C4_connector_error_aborts.2.2.2.1
      (SyncState.mk none none
        (some (TicketConn.mk (Except.error "Timeout"))) none)
      (TicketConn.mk (Except.error "Timeout")) "Timeout"
      (ContentDict.mk [] [] [] []) (ContentDict.mk [] [] [] [])
      rfl rfl rfl rfl
  · exact C4_connector_error_aborts.2.2.2.2.1
      (SyncState.mk none none none
        (some (ConfluenceConn.mk (Except.error "HTTP 503"))))
      (ConfluenceConn.mk (Except.error "HTTP 503")) "HTTP 503"
      (ContentDict.mk [] [] [] []) (ContentDict.mk [] [] [] [])
      (ContentDict.mk [] [] [] []) rfl rfl rfl rfl rfl
  · exact C4_connector_error_aborts.2.2.2.2.2.2.1
      (SyncState.mk none none none none) rfl

/-- C8: every `handle_<source>_update` returns `None` (without raising) for
a webhook payload dictionary that lacks the source's identifier: the Jira
issue key, the Linear `data.id`, the Confluence `page.id`, the Google Docs
`documentId`. -/
theorem C8_missing_identifier :
    (∀ (st : SyncState) (fields : SContent),
      (∀ issue_fields,
        findVal fields "issue" = some (JValue.obj issue_fields) →
        findVal issue_fields "key" = none) →
      handle_jira_update st (JValue.obj fields) = none) ∧
    (∀ (st : SyncState) (fields : SContent),
      (∀ data_fields,
        findVal fields "data" = some (JValue.obj data_fields) →
        findVal data_fields "id" = none) →
      handle_linear_update st (JValue.obj fields) = none) ∧
    (∀ (st : SyncState) (fields : SContent),
      (∀ page_fields,
        findVal fields "page" = some (JValue.obj page_fields) →
        findVal page_fields "id" = none) →
      handle_confluence_update st (JValue.obj fields) = none) ∧
    (∀ (st : SyncState) (fields : SContent),
      findVal fields "documentId" = none →
      handle_docs_update st (JValue.obj fields) = Except.ok none) := by
  refine ⟨fun st fields h => ?_, fun st fields h => ?_,
    fun st fields h => ?_, fun st fields h => ?_⟩
  · cases hj : st.jira with
    | none => simp [handle_jira_update, hj]
    | some jc =>
      simp only [handle_jira_update, hj]
      cases hiss : findVal fields "issue" with
      | none => simp [jira_process_webhook, hiss, findVal]
      | some iv =>
        cases iv
        case obj issue_fields =>
          simp [jira_process_webhook, hiss, h issue_fields hiss]
        all_goals simp [jira_process_webhook, hiss]
  · cases hl : st.linear with
    | none => simp [handle_linear_update, hl]
    | some lc =>
      simp only [handle_linear_update, hl]
      cases hd : findVal fields "data" with
      | none => simp [linear_process_webhook, hd, findVal]
      | some dv =>
        cases dv
        case obj data_fields =>
          simp [linear_process_webhook, hd, h data_fields hd]
        all_goals simp [linear_process_webhook, hd]
  · cases hc : st.confluence with
    | none => simp [handle_confluence_update, hc]
    | some cc =>
      simp only [handle_confluence_update, hc]
      cases hp : findVal fields "page" with
      | none => simp [confluence_process_webhook, hp, findVal]
      | some pv =>
        cases pv
        case obj page_fields =>
          simp [confluence_process_webhook, hp, h page_fields hp]
        all_goals simp [confluence_process_webhook, hp]
  · simp [handle_docs_update, h]

/-- A state with all four integrations set, over empty sample data. -/
def connectedState : SyncState :=
  { google_docs := some
      { get_connected_docs := Except.ok [],
        get_document_type := fun _ => Except.ok none,
        get_document_content := fun _ => Except.ok [] },
    jira := some { get_tickets := Except.ok [] },
    linear := some { get_tickets := Except.ok [] },
    confluence := some { get_pages := Except.ok [] } }

/-- Closed instance of `C8_missing_identifier`: payloads carrying only the
event field, with every integration set. -/
theorem C8_missing_identifier_witness :
    handle_jira_update connectedState
        (JValue.obj [("webhookEvent", JValue.str "jira:issue_created")]) =
      none ∧
    handle_linear_update connectedState
        (JValue.obj [("action", JValue.str "create")]) = none ∧
    handle_confluence_update connectedState
        (JValue.obj [("event", JValue.str "page_created")]) = none ∧
    handle_docs_update connectedState (JValue.obj []) = Except.ok none := by
  refine ⟨?_, ?_, ?_, ?_⟩
  · exact C8_missing_identifier.1 connectedState _
      (by intro ifs hh; simp [findVal] at hh)
  · exact C8_missing_identifier.2.1 connectedState _
      (by intro dfs hh; simp [findVal] at hh)
  · exact C8_missing_identifier.2.2.1 connectedState _
      (by intro pfs hh; simp [findVal] at hh)
  · exact C8_missing_identifier.2.2.2 connectedState [] rfl

/-- C10: for a payload carrying the `documentId` of a connected document,
`handle_docs_update` diffs the freshly fetched content against the empty
previous version: every current section is reported under `added` for the
document's type, `modified` and `removed` stay empty, and the result is
`None` exactly when the fetched content has no sections. -/
theorem C10_docs_update_diffs_against_empty (st : SyncState)
    (gd : GoogleDocsConn) (fields : SContent) (doc_id : JValue)
    (doc_type : String) (c : SContent)
    (hgd : st.google_docs = some gd)
    (hdid : findVal fields "documentId" = some doc_id)
    (htru : jTruthy doc_id = true)
    (htype : gd.get_document_type doc_id = Except.ok (some doc_type))
    (hne : doc_type.isEmpty = false)
    (hcontent : gd.get_document_content doc_id = Except.ok c) :
    handle_docs_update st (JValue.obj fields) =
      Except.ok
        (if c.isEmpty then none
         else
           some [(doc_type,
             Changes.mk (c.map (fun kv => JValue.str kv.1)) [] [])]) := by
  simp only [handle_docs_update, hdid, htru, hgd, htype, hne,
    Bool.not_true, Bool.false_eq_true, if_false, hcontent]
  cases c with
  | nil => simp
  | cons kv rest => simp

/-- Closed instance of `C10_docs_update_diffs_against_empty` on a connected
one-section document. -/
theorem C10_docs_update_witness :
    handle_docs_update
        (SyncState.mk
          (some (GoogleDocsConn.mk (Except.ok [("doc1", "prd")])
            (fun _ => Except.ok (some "prd"))
            (fun _ => Except.ok [("overview", JValue.str "x")])))
          none none none)
        (JValue.obj [("documentId", JValue.str "doc1")]) =
      Except.ok
        (some [("prd", Changes.mk [JValue.str "overview"] [] [])]) := by
  have h := C10_docs_update_diffs_against_empty
    (SyncState.mk
      (some (GoogleDocsConn.mk (Except.ok [("doc1", "prd")])
        (fun _ => Except.ok (some "prd"))
        (fun _ => Except.ok [("overview", JValue.str "x")])))
      none none none)
    (GoogleDocsConn.mk (Except.ok [("doc1", "prd")])
      (fun _ => Except.ok (some "prd"))
      (fun _ => Except.ok [("overview", JValue.str "x")]))
    [("documentId", JValue.str "doc1")] (JValue.str "doc1") "prd"
    [("overview", JValue.str "x")] rfl rfl rfl rfl rfl rfl
  simpa using h

end DocSync
